import Mathlib

/-!
# freelan: ICMPv6 checksum helper and configuration helper

A shallow embedding of

* `libs/asiotap/src/icmpv6_helper.cpp` (the ICMPv6 pseudo header and the
  `compute_checksum` operation of the ICMPv6 frame helper), and
* `src/configuration_helper.cpp` (the parsers of the enumeration-valued
  configuration options and the option declarations that give their defaults).

Conventions.  A buffer is a `List Nat` of bytes in memory order.  A multi-byte
field of a structure is represented by its bytes in memory order, so a field
holding a value in network byte order holds the big-endian bytes of that value.
A 16-bit checksum value `c` stands for the two wire bytes `c / 256`, `c % 256`.
-/

namespace asiotap.osi

/-! ## Helpers over frames -/

/-- The access mode of a frame helper: `const_helper_tag` or `mutable_helper_tag`. -/
inductive HelperTag where
  | const_helper_tag
  | mutable_helper_tag
  deriving DecidableEq, Repr

/-- The frame types used by the ICMPv6 helper. -/
inductive FrameType where
  | ipv6_frame
  | icmpv6_frame
  deriving DecidableEq, Repr

/-- Modelled from the spec: the declaration of the helper class
`_base_helper_impl<HelperTag, FrameType>` is not part of the sources at hand; it
is the frame view of section 3 of the specification, a typed view over a byte
region. -/
structure base_helper_impl (tag : HelperTag) (ft : FrameType) where
  buffer : List Nat
  deriving DecidableEq, Repr

/-- The type `const_helper<FrameType>`. -/
abbrev const_helper (ft : FrameType) : Type :=
  base_helper_impl HelperTag.const_helper_tag ft

/-- The type `mutable_helper<FrameType>`. -/
abbrev mutable_helper (ft : FrameType) : Type :=
  base_helper_impl HelperTag.mutable_helper_tag ft

/-- Modelled from the spec: the declaration of `ipv6_frame` is not part of the
sources at hand; the IPv6 header layout of RFC 8200 is used (section 6 of the
specification): bytes 0..3 version, class and label, bytes 4..5 payload length
(big-endian), byte 6 next header, byte 7 hop limit, bytes 8..23 source address,
bytes 24..39 destination address. -/
structure ipv6_frame where
  version_class_label : List Nat
  payload_length : List Nat
  next_header : Nat
  hop_limit : Nat
  source : List Nat
  destination : List Nat
  deriving DecidableEq, Repr

/-- Modelled from the spec: the accessor `frame()` of an IPv6 helper is not part
of the sources at hand; it is the header structure laid over the first 40 bytes
of the buffer. -/
def frame (parent_frame : const_helper FrameType.ipv6_frame) : ipv6_frame :=
  { version_class_label := parent_frame.buffer.take 4
    payload_length := (parent_frame.buffer.drop 4).take 2
    next_header := parent_frame.buffer.getD 6 0
    hop_limit := parent_frame.buffer.getD 7 0
    source := (parent_frame.buffer.drop 8).take 16
    destination := (parent_frame.buffer.drop 24).take 16 }

/-- The value of a 16-bit field held in network byte order (`ntohs`). -/
def ntohs (field : List Nat) : Nat :=
  (field.getD 0 0 * 256 + field.getD 1 0) % 2 ^ 16

/-- The bytes of a 32-bit field holding `n` in network byte order (`htonl`). -/
def htonl (n : Nat) : List Nat :=
  [n / 2 ^ 24 % 256, n / 2 ^ 16 % 256, n / 2 ^ 8 % 256, n % 256]

/-- Modelled from the spec: the accessor `payload_length()` of the IPv6 helper
is not part of the sources at hand; it is the payload-length field of the IPv6
header read in host order. -/
def payload_length (parent_frame : const_helper FrameType.ipv6_frame) : Nat :=
  ntohs (frame parent_frame).payload_length

/-- Modelled from the spec: the constant `ICMPV6_HEADER` is not part of the
sources at hand; ICMPv6 is protocol 58. -/
def ICMPV6_HEADER : Nat := 58

/-- Modelled from the spec: the declaration of `icmpv6_ipv6_pseudo_header` is
not part of the sources at hand; the IPv6 pseudo header of RFC 8200 is used:
source address (16 bytes), destination address (16 bytes), upper-layer length
(4 bytes), three zero bytes, next header (1 byte). -/
structure icmpv6_ipv6_pseudo_header where
  ipv6_source : List Nat
  ipv6_destination : List Nat
  upper_layer_length : List Nat
  zero : List Nat
  ipv6_next_header : Nat
  deriving DecidableEq, Repr

/-- The value-initialised pseudo header (`pseudo_header = {}`): every byte is
zero. -/
def icmpv6_ipv6_pseudo_header.zeroed : icmpv6_ipv6_pseudo_header :=
  { ipv6_source := List.replicate 16 0
    ipv6_destination := List.replicate 16 0
    upper_layer_length := List.replicate 4 0
    zero := List.replicate 3 0
    ipv6_next_header := 0 }

/-- The bytes of a pseudo header in memory order (what the cast of
`&pseudo_header` to a word pointer reads, `sizeof(pseudo_header)` bytes). -/
def icmpv6_ipv6_pseudo_header.bytes (h : icmpv6_ipv6_pseudo_header) : List Nat :=
  h.ipv6_source ++ h.ipv6_destination ++ h.upper_layer_length ++ h.zero
    ++ [h.ipv6_next_header]

/-- The function `parent_frame_to_pseudo_header` of `icmpv6_helper.cpp`. -/
def parent_frame_to_pseudo_header (parent_frame : const_helper FrameType.ipv6_frame) :
    icmpv6_ipv6_pseudo_header :=
  let pseudo_header := icmpv6_ipv6_pseudo_header.zeroed
  let pseudo_header := { pseudo_header with ipv6_source := (frame parent_frame).source }
  let pseudo_header :=
    { pseudo_header with ipv6_destination := (frame parent_frame).destination }
  let pseudo_header :=
    { pseudo_header with upper_layer_length := htonl (payload_length parent_frame) }
  let pseudo_header := { pseudo_header with ipv6_next_header := ICMPV6_HEADER }
  pseudo_header

/-! ## The checksum engine -/

/-- Modelled from the spec: the class `checksum_helper`
(`osi/checksum_helper.hpp`) is not part of the sources at hand.  It is the
checksum accumulator of section 3 of the specification: a running sum of 16-bit
words, at least 32 bits wide (here unbounded), and a trailing-odd-byte flag. -/
structure checksum_helper where
  m_sum : Nat
  m_trailing_odd : Bool
  deriving DecidableEq, Repr

/-- The freshly constructed accumulator. -/
def checksum_helper.init : checksum_helper :=
  { m_sum := 0, m_trailing_odd := false }

/-- Modelled from the spec: steps 1 and 2 of the checksum engine on one span:
the sum of the complete big-endian 16-bit words of the span, a trailing byte of
an odd span counting as the high byte of a word whose low byte is zero. -/
def sum_words : List Nat → Nat
  | [] => 0
  | [b] => b * 256
  | hi :: lo :: rest => (hi * 256 + lo) + sum_words rest

/-- Modelled from the spec: `checksum_helper::update` feeds one span to the
accumulator. -/
def checksum_helper.update (chk : checksum_helper) (span : List Nat) : checksum_helper :=
  { m_sum := chk.m_sum + sum_words span
    m_trailing_odd := decide (span.length % 2 = 1) }

/-- Modelled from the spec: step 3 of the checksum engine, the loop that adds
the bits above the low 16 bits of the sum into the low 16 bits until the sum
fits in 16 bits; `fuel` bounds the number of rounds. -/
def fold_carries_loop : Nat → Nat → Nat
  | 0, sum => sum
  | fuel + 1, sum =>
    if sum < 2 ^ 16 then sum
    else fold_carries_loop fuel (sum / 2 ^ 16 + sum % 2 ^ 16)

/-- Modelled from the spec: step 3 of the checksum engine.  Every round on a
sum that does not fit in 16 bits makes it smaller, so `sum` rounds are enough
(`fold_carries_lt`). -/
def fold_carries (sum : Nat) : Nat :=
  fold_carries_loop sum sum

/-- Bitwise NOT of a 16-bit value. -/
def not16 (x : Nat) : Nat :=
  x ^^^ 0xFFFF

/-- Modelled from the spec: `checksum_helper::compute`, steps 3 and 4 of the
checksum engine: fold the carries, return the bitwise complement. -/
def checksum_helper.compute (chk : checksum_helper) : Nat :=
  not16 (fold_carries chk.m_sum)

/-! ## The ICMPv6 checksum -/

/-- The function template `compute_icmpv6_checksum` of `icmpv6_helper.cpp`. -/
def compute_icmpv6_checksum {tag : HelperTag}
    (parent_frame : const_helper FrameType.ipv6_frame)
    (icmpv6_frame : base_helper_impl tag FrameType.icmpv6_frame) : Nat :=
  let buf := icmpv6_frame.buffer
  let pseudo_header := parent_frame_to_pseudo_header parent_frame
  let chk := checksum_helper.init
  let chk := chk.update pseudo_header.bytes
  let chk := chk.update buf
  chk.compute

/-- The member function
`_base_helper_impl<HelperTag, icmpv6_frame>::compute_checksum`. -/
def compute_checksum {tag : HelperTag}
    (self : base_helper_impl tag FrameType.icmpv6_frame)
    (parent_frame : const_helper FrameType.ipv6_frame) : Nat :=
  compute_icmpv6_checksum parent_frame self

/-- Modelled from the spec: the setter of the checksum field of an ICMPv6 frame
is not part of the sources at hand; the checksum of an ICMPv6 message (RFC 4443)
is the big-endian 16-bit field at bytes 2..3. -/
def set_checksum (self : mutable_helper FrameType.icmpv6_frame) (checksum : Nat) :
    mutable_helper FrameType.icmpv6_frame :=
  { buffer := (self.buffer.set 2 (checksum / 256 % 256)).set 3 (checksum % 256) }

/-! ## The reference checksum of RFC 1071 -/

/-- The big-endian 16-bit words of a span, the trailing byte of an odd span
padded with a zero low byte. -/
def words_of_span : List Nat → List Nat
  | [] => []
  | [b] => [b * 256 + 0]
  | hi :: lo :: rest => (hi * 256 + lo) :: words_of_span rest

/-- The RFC 1071 checksum of a sequence of spans as the specification words it:
the sum of the 16-bit words of all spans, carries folded, bitwise NOT. -/
def rfc1071_checksum (spans : List (List Nat)) : Nat :=
  not16 (fold_carries ((spans.map fun span => (words_of_span span).sum).sum))

/-! ## Sample frames -/

/-- The 16-byte ICMPv6 echo request of the end-to-end scenario: type 128, code
0, checksum field cleared, identifier and sequence number zero, then 8 zero
payload bytes. -/
def echo_request : List Nat :=
  [128, 0, 0, 0, 0, 0, 0, 0, 0, 0, 0, 0, 0, 0, 0, 0]

/-- An IPv6 packet from `::1` to `::2` that carries `echo_request` directly:
payload length 16, next header 58. -/
def plain_packet : List Nat :=
  [0x60, 0, 0, 0, 0, 16, 58, 64,
    0, 0, 0, 0, 0, 0, 0, 0, 0, 0, 0, 0, 0, 0, 0, 1,
    0, 0, 0, 0, 0, 0, 0, 0, 0, 0, 0, 0, 0, 0, 0, 2] ++ echo_request

/-- An IPv6 packet from `::1` to `::2` that carries an 8-byte hop-by-hop options
header (next header 58, one PadN option) before `echo_request`: payload length
24, next header 0. -/
def extension_packet : List Nat :=
  [0x60, 0, 0, 0, 0, 24, 0, 64,
    0, 0, 0, 0, 0, 0, 0, 0, 0, 0, 0, 0, 0, 0, 0, 1,
    0, 0, 0, 0, 0, 0, 0, 0, 0, 0, 0, 0, 0, 0, 0, 2,
    58, 0, 1, 4, 0, 0, 0, 0] ++ echo_request

/-- An IPv6 packet from `::1` to `::2` with payload length 16, its other header
bytes and its payload left open. -/
def scenario_packet (v0 v1 v2 v3 nh hl : Nat) (payload : List Nat) : List Nat :=
  [v0, v1, v2, v3, 0, 16, nh, hl,
    0, 0, 0, 0, 0, 0, 0, 0, 0, 0, 0, 0, 0, 0, 0, 1,
    0, 0, 0, 0, 0, 0, 0, 0, 0, 0, 0, 0, 0, 0, 0, 2] ++ payload

/-- A 5-byte ICMPv6 frame: an odd number of bytes. -/
def odd_frame : List Nat :=
  [128, 0, 0, 0, 7]

end asiotap.osi

namespace freelan

/-! ## The configuration helper -/

/-- The values of `configuration::hostname_resolution_protocol_type` that the
parser returns: `boost::asio::ip::udp::v4()` and `boost::asio::ip::udp::v6()`. -/
inductive hostname_resolution_protocol_type where
  | udp_v4
  | udp_v6
  deriving DecidableEq, Repr

/-- The enumeration `switch_configuration::routing_method_type`. -/
inductive routing_method_type where
  | RM_SWITCH
  | RM_HUB
  deriving DecidableEq, Repr

/-- The enumeration `configuration::certificate_validation_method_type`. -/
inductive certificate_validation_method_type where
  | CVM_DEFAULT
  | CVM_NONE
  deriving DecidableEq, Repr

/-- The function `parse_network_hostname_resolution_protocol`; the error is the
message of the `std::runtime_error` thrown. -/
def parse_network_hostname_resolution_protocol (str : String) :
    Except String hostname_resolution_protocol_type :=
  if str = "system_default" then
    Except.ok hostname_resolution_protocol_type.udp_v4
  else if str = "ipv4" then
    Except.ok hostname_resolution_protocol_type.udp_v4
  else if str = "ipv6" then
    Except.ok hostname_resolution_protocol_type.udp_v6
  else
    Except.error ("\"" ++ str ++ "\" is not a valid hostname resolution protocol")

/-- The function `to_routing_method`; the error is the message of the
`std::runtime_error` thrown. -/
def to_routing_method (str : String) : Except String routing_method_type :=
  if str = "switch" then
    Except.ok routing_method_type.RM_SWITCH
  else if str = "hub" then
    Except.ok routing_method_type.RM_HUB
  else
    Except.error ("\"" ++ str ++ "\" is not a valid routing method")

/-- The function `to_certificate_validation_method`; the error is the message of
the `std::runtime_error` thrown. -/
def to_certificate_validation_method (str : String) :
    Except String certificate_validation_method_type :=
  if str = "default" then
    Except.ok certificate_validation_method_type.CVM_DEFAULT
  else if str = "none" then
    Except.ok certificate_validation_method_type.CVM_NONE
  else
    Except.error ("\"" ++ str ++ "\" is not a valid certificate validation method")

/-- The value of an option: a string, a boolean or a list of strings. -/
inductive option_value where
  | string (s : String)
  | boolean (b : Bool)
  | strings (l : List String)
  deriving DecidableEq, Repr

/-- One option of an `options_description`: its name, its declared default
value if it has one, and whether it is required. -/
structure option_description where
  long_name : String
  default_value : Option option_value
  required : Bool
  deriving DecidableEq, Repr

/-- The options declared by `get_network_options`. -/
def get_network_options : List option_description :=
  [ ⟨"network.hostname_resolution_protocol", some (option_value.string "system_default"), false⟩,
    ⟨"network.listen_on", some (option_value.string "0.0.0.0:12000"), false⟩,
    ⟨"network.enable_tap_adapter", some (option_value.boolean true), false⟩,
    ⟨"network.tap_adapter_ipv4_address_prefix_length",
      some (option_value.string "9.0.0.1/24"), false⟩,
    ⟨"network.tap_adapter_ipv6_address_prefix_length",
      some (option_value.string "fe80::1/10"), false⟩,
    ⟨"network.enable_arp_proxy", some (option_value.boolean false), false⟩,
    ⟨"network.arp_proxy_fake_ethernet_address",
      some (option_value.string "00:aa:bb:cc:dd:ee"), false⟩,
    ⟨"network.enable_dhcp_proxy", some (option_value.boolean true), false⟩,
    ⟨"network.dhcp_server_ipv4_address_prefix_length",
      some (option_value.string "9.0.0.0/24"), false⟩,
    ⟨"network.dhcp_server_ipv6_address_prefix_length",
      some (option_value.string "fe80::/10"), false⟩,
    ⟨"network.hello_timeout", some (option_value.string "3000"), false⟩,
    ⟨"network.contact", some (option_value.strings []), false⟩ ]

/-- The options declared by `get_switch_options`. -/
def get_switch_options : List option_description :=
  [ ⟨"switch.routing_method", some (option_value.string "switch"), false⟩,
    ⟨"switch.enable_relay_mode", some (option_value.boolean false), false⟩,
    ⟨"switch.enable_stp", some (option_value.boolean false), false⟩ ]

/-- The options declared by `get_security_options`. -/
def get_security_options : List option_description :=
  [ ⟨"security.signature_certificate_file", none, true⟩,
    ⟨"security.signature_private_key_file", none, true⟩,
    ⟨"security.encryption_certificate_file", none, false⟩,
    ⟨"security.encryption_private_key_file", none, false⟩,
    ⟨"security.certificate_validation_method", some (option_value.string "default"), false⟩,
    ⟨"security.certificate_validation_script", none, false⟩,
    ⟨"security.authority_certificate_file", some (option_value.strings []), false⟩ ]

/-- A `variables_map`: the value stored for each option name, if any. -/
abbrev variables_map : Type := String → Option option_value

/-- The variables map of options that are all left at their defaults. -/
def defaults (options : List option_description) : variables_map :=
  fun key => (options.find? fun o => o.long_name == key).bind fun o => o.default_value

/-- The read `vm[key].as<std::string>()`: fails when the value is absent or not
a string. -/
def as_string (vm : variables_map) (key : String) : Except String String :=
  match vm key with
  | some (option_value.string s) => Except.ok s
  | _ => Except.error "bad_any_cast"

/-- The first statement of `setup_configuration` (line 186): the value assigned
to `configuration.hostname_resolution_protocol`, or the exception thrown by the
read of the option or by the parser. -/
def setup_hostname_resolution_protocol (vm : variables_map) :
    Except String hostname_resolution_protocol_type :=
  (as_string vm "network.hostname_resolution_protocol").bind
    parse_network_hostname_resolution_protocol

end freelan

namespace asiotap.osi

/-! ## Lemmas on the checksum engine -/

theorem fold_carries_loop_spec (fuel : Nat) :
    ∀ sum, sum ≤ fuel →
      fold_carries_loop fuel sum < 65536 ∧
      fold_carries_loop fuel sum % 65535 = sum % 65535 ∧
      (fold_carries_loop fuel sum = 0 ↔ sum = 0) := by
  have e : (2 : Nat) ^ 16 = 65536 := by norm_num
  induction fuel with
  | zero =>
    intro sum h
    have h0 : sum = 0 := by omega
    subst h0
    simp [fold_carries_loop]
  | succ n ih =>
    intro sum h
    unfold fold_carries_loop
    rw [e]
    by_cases hs : sum < 65536
    · rw [if_pos hs]
      exact ⟨hs, rfl, Iff.rfl⟩
    · rw [if_neg hs]
      have hlt : sum / 65536 + sum % 65536 ≤ n := by omega
      obtain ⟨h1, h2, h3⟩ := ih _ hlt
      refine ⟨h1, ?_, ?_⟩
      · rw [h2]
        omega
      · rw [h3]
        omega

/-- The folding loop always ends with a sum that fits in 16 bits. -/
theorem fold_carries_lt (sum : Nat) : fold_carries sum < 65536 :=
  (fold_carries_loop_spec sum sum (Nat.le_refl _)).1

theorem fold_carries_mod (sum : Nat) : fold_carries sum % 65535 = sum % 65535 :=
  (fold_carries_loop_spec sum sum (Nat.le_refl _)).2.1

theorem fold_carries_eq_zero_iff (sum : Nat) : fold_carries sum = 0 ↔ sum = 0 :=
  (fold_carries_loop_spec sum sum (Nat.le_refl _)).2.2

/-- The folded sum in closed form: the one's-complement representative of the
sum, zero only for the zero sum. -/
theorem fold_carries_closed_form (sum : Nat) :
    fold_carries sum = if sum = 0 then 0 else (sum - 1) % 65535 + 1 := by
  have h1 := fold_carries_lt sum
  have h2 := fold_carries_mod sum
  have h3 := fold_carries_eq_zero_iff sum
  by_cases hs : sum = 0
  · rw [if_pos hs]
    exact h3.2 hs
  · rw [if_neg hs]
    have h4 : fold_carries sum ≠ 0 := fun h => hs (h3.1 h)
    omega

/-- On 16-bit values the bitwise NOT is the subtraction from `0xFFFF`. -/
theorem not16_eq_sub (x : Nat) (h : x < 65536) : not16 x = 65535 - x := by
  unfold not16
  apply Nat.eq_of_testBit_eq
  intro i
  have h16 : x < 2 ^ 16 := by
    have : (2 : Nat) ^ 16 = 65536 := by norm_num
    omega
  have e1 : 65535 - x = 2 ^ 16 - (x + 1) := by
    have : (2 : Nat) ^ 16 = 65536 := by norm_num
    omega
  have e2 : (0xFFFF : Nat) = 2 ^ 16 - 1 := by norm_num
  rw [e1, Nat.testBit_two_pow_sub_succ h16, Nat.testBit_xor, e2,
    Nat.testBit_two_pow_sub_one]
  by_cases hi : i < 16
  · simp [hi]
  · simp [hi]
    exact Nat.testBit_lt_two_pow (Nat.lt_of_lt_of_le h16
      (Nat.pow_le_pow_right (by norm_num) (by omega)))

theorem not16_lt (x : Nat) (h : x < 65536) : not16 x < 65536 := by
  rw [not16_eq_sub x h]
  omega

theorem sum_words_eq_words_sum (span : List Nat) :
    sum_words span = (words_of_span span).sum := by
  induction span using sum_words.induct with
  | case1 => rfl
  | case2 b => simp [sum_words, words_of_span]
  | case3 hi lo rest ih => simp [sum_words, words_of_span, ih]

theorem sum_words_append_even (a b : List Nat) (h : a.length % 2 = 0) :
    sum_words (a ++ b) = sum_words a + sum_words b := by
  induction a using sum_words.induct with
  | case1 => simp [sum_words]
  | case2 x => simp at h
  | case3 hi lo rest ih =>
    have h2 : rest.length % 2 = 0 := by
      simp only [List.length_cons] at h
      omega
    simp [sum_words, ih h2]
    omega

theorem sum_words_append_zero (f : List Nat) (h : f.length % 2 = 1) :
    sum_words (f ++ [0]) = sum_words f := by
  induction f using sum_words.induct with
  | case1 => simp at h
  | case2 x => simp [sum_words]
  | case3 hi lo rest ih =>
    have h2 : rest.length % 2 = 1 := by
      simp only [List.length_cons] at h
      omega
    simp [sum_words, ih h2]

theorem sum_words_odd_last (f : List Nat) (h : f.length % 2 = 1) :
    ∃ front last, f = front ++ [last] ∧ front.length % 2 = 0 ∧
      sum_words f = sum_words front + last * 256 := by
  induction f using sum_words.induct with
  | case1 => simp at h
  | case2 x => exact ⟨[], x, by simp [sum_words]⟩
  | case3 hi lo rest ih =>
    have h2 : rest.length % 2 = 1 := by
      simp only [List.length_cons] at h
      omega
    obtain ⟨front, last, e, hl, hs⟩ := ih h2
    refine ⟨hi :: lo :: front, last, by simp [e], ?_, ?_⟩
    · simp only [List.length_cons]
      omega
    · simp [sum_words, hs]
      omega

/-- A span of bytes sums to at most `0xFFFF` per 16-bit word. -/
theorem sum_words_le (span : List Nat) (h : ∀ b ∈ span, b < 256) :
    sum_words span ≤ 65535 * ((span.length + 1) / 2) := by
  induction span using sum_words.induct with
  | case1 => simp [sum_words]
  | case2 b =>
    have hb := h b (by simp)
    simp [sum_words]
    omega
  | case3 hi lo rest ih =>
    have h1 := h hi (by simp)
    have h2 := h lo (by simp)
    have h3 := ih fun b hb => h b (by simp [hb])
    simp only [sum_words, List.length_cons]
    omega

/-- The bytes of the pseudo header are bytes when those of the parent are. -/
theorem pseudo_header_bytes_lt (p : List Nat) (h : ∀ b ∈ p, b < 256) :
    ∀ b ∈ (parent_frame_to_pseudo_header ⟨p⟩).bytes, b < 256 := by
  intro b hb
  simp only [parent_frame_to_pseudo_header, icmpv6_ipv6_pseudo_header.bytes,
    icmpv6_ipv6_pseudo_header.zeroed, frame, htonl, ICMPV6_HEADER, List.mem_append,
    List.mem_cons, List.mem_singleton, List.mem_replicate] at hb
  rcases hb with (((hb | hb) | hb) | hb) | hb
  · exact h b (List.mem_of_mem_drop (List.mem_of_mem_take hb))
  · exact h b (List.mem_of_mem_drop (List.mem_of_mem_take hb))
  · rcases hb with hb | hb | hb | hb | hb
    · rw [hb]
      exact Nat.mod_lt _ (by norm_num)
    · rw [hb]
      exact Nat.mod_lt _ (by norm_num)
    · rw [hb]
      exact Nat.mod_lt _ (by norm_num)
    · rw [hb]
      exact Nat.mod_lt _ (by norm_num)
    · simp at hb
  · omega
  · rcases hb with hb | hb
    · omega
    · simp at hb

/-- The accumulator stays within 32 bits: for a parent frame and an ICMPv6 frame
made of bytes, the ICMPv6 frame being at most 131000 bytes long, the sum of the
words of the pseudo header and of the frame is below `2 ^ 32`. -/
theorem accumulator_fits_32_bits (p f : List Nat) (hp : ∀ b ∈ p, b < 256)
    (hf : ∀ b ∈ f, b < 256) (hl : f.length ≤ 131000) :
    sum_words (parent_frame_to_pseudo_header ⟨p⟩).bytes + sum_words f < 2 ^ 32 := by
  have h1 := sum_words_le _ (pseudo_header_bytes_lt p hp)
  have h2 := sum_words_le f hf
  have h3 : (parent_frame_to_pseudo_header ⟨p⟩).bytes.length ≤ 40 := by
    simp [parent_frame_to_pseudo_header, icmpv6_ipv6_pseudo_header.bytes,
      icmpv6_ipv6_pseudo_header.zeroed, frame, htonl]
    omega
  have e : (2 : Nat) ^ 32 = 4294967296 := by norm_num
  rw [e]
  omega

/-- The checksum computed by the helper, in terms of the two sums. -/
theorem compute_checksum_eq {tag : HelperTag}
    (self : base_helper_impl tag FrameType.icmpv6_frame)
    (parent_frame : const_helper FrameType.ipv6_frame) :
    compute_checksum self parent_frame =
      not16 (fold_carries (sum_words (parent_frame_to_pseudo_header parent_frame).bytes
        + sum_words self.buffer)) := by
  simp [compute_checksum, compute_icmpv6_checksum, checksum_helper.compute,
    checksum_helper.update, checksum_helper.init]

/-- Adding the complement of the folded sum to the sum gives a sum whose
checksum is zero. -/
theorem checksum_cancel (sum : Nat) :
    not16 (fold_carries (sum + not16 (fold_carries sum))) = 0 := by
  have h1 := fold_carries_lt sum
  rw [not16_eq_sub _ h1]
  have h2 := fold_carries_lt (sum + (65535 - fold_carries sum))
  rw [not16_eq_sub _ h2]
  have h3 := fold_carries_mod (sum + (65535 - fold_carries sum))
  have h4 := fold_carries_mod sum
  have h5 := fold_carries_eq_zero_iff (sum + (65535 - fold_carries sum))
  have h6 := fold_carries_eq_zero_iff sum
  have h7 : fold_carries (sum + (65535 - fold_carries sum)) ≠ 0 := by
    intro h
    have := h5.1 h
    have hs : sum = 0 := by omega
    have := h6.2 hs
    omega
  omega

theorem pseudo_header_bytes_length (p : List Nat) (h : 40 ≤ p.length) :
    (parent_frame_to_pseudo_header ⟨p⟩).bytes.length = 40 := by
  simp [parent_frame_to_pseudo_header, icmpv6_ipv6_pseudo_header.bytes,
    icmpv6_ipv6_pseudo_header.zeroed, frame, htonl]
  omega

/-! ## The pseudo header -/

/-- C1: the next-header field of the pseudo header is the ICMPv6 constant 58
whatever the parent frame holds; a parent frame whose next-header byte (byte 6)
is overwritten with any value yields the same pseudo header and the same
`compute_checksum` result for the same ICMPv6 frame. -/
theorem pseudo_header_next_header_fixed {tag : HelperTag} (p : List Nat) (nh : Nat)
    (icmpv6 : base_helper_impl tag FrameType.icmpv6_frame) :
    (parent_frame_to_pseudo_header ⟨p⟩).ipv6_next_header = 58 ∧
    (parent_frame_to_pseudo_header ⟨p⟩).bytes.getLast? = some 58 ∧
    parent_frame_to_pseudo_header ⟨p.set 6 nh⟩ = parent_frame_to_pseudo_header ⟨p⟩ ∧
    compute_checksum icmpv6 ⟨p.set 6 nh⟩ = compute_checksum icmpv6 ⟨p⟩ := by
  have hps : parent_frame_to_pseudo_header ⟨p.set 6 nh⟩
      = parent_frame_to_pseudo_header ⟨p⟩ := by
    have h8 : (p.set 6 nh).drop 8 = p.drop 8 := List.drop_set_of_lt nh p (by omega)
    have h24 : (p.set 6 nh).drop 24 = p.drop 24 := List.drop_set_of_lt nh p (by omega)
    have h4 : ((p.set 6 nh).drop 4).take 2 = (p.drop 4).take 2 := by
      rw [List.drop_set, if_neg (by omega), List.set_take,
        List.set_eq_of_length_le (by simp)]
    simp only [parent_frame_to_pseudo_header, frame, payload_length, h8, h24, h4]
  refine ⟨rfl, ?_, hps, ?_⟩
  · simp [parent_frame_to_pseudo_header, icmpv6_ipv6_pseudo_header.bytes, ICMPV6_HEADER]
  · rw [compute_checksum_eq, compute_checksum_eq, hps]

/-- C7: for a parent frame of at least 40 bytes the pseudo header is 40 bytes
long; its bytes 0..15 are the source address of the parent (bytes 8..23), its
bytes 16..31 the destination address of the parent (bytes 24..39), and the
bytes 36..38, the ones that are neither address, length nor next header, are
zero. -/
theorem pseudo_header_addresses_verbatim (p : List Nat) (h : 40 ≤ p.length) :
    (parent_frame_to_pseudo_header ⟨p⟩).ipv6_source = (p.drop 8).take 16 ∧
    (parent_frame_to_pseudo_header ⟨p⟩).ipv6_destination = (p.drop 24).take 16 ∧
    (parent_frame_to_pseudo_header ⟨p⟩).bytes.length = 40 ∧
    (parent_frame_to_pseudo_header ⟨p⟩).bytes.take 16 = (p.drop 8).take 16 ∧
    ((parent_frame_to_pseudo_header ⟨p⟩).bytes.drop 16).take 16 = (p.drop 24).take 16 ∧
    ((parent_frame_to_pseudo_header ⟨p⟩).bytes.drop 32).take 4
      = (parent_frame_to_pseudo_header ⟨p⟩).upper_layer_length ∧
    ((parent_frame_to_pseudo_header ⟨p⟩).bytes.drop 36).take 3 = [0, 0, 0] ∧
    (parent_frame_to_pseudo_header ⟨p⟩).bytes.drop 39
      = [(parent_frame_to_pseudo_header ⟨p⟩).ipv6_next_header] := by
  have hs : ((p.drop 8).take 16).length = 16 := by simp; omega
  have hd : ((p.drop 24).take 16).length = 16 := by simp; omega
  have dA : ∀ n, 16 ≤ n → ((p.drop 8).take 16).drop n = [] :=
    fun n hn => List.drop_of_length_le (by omega)
  have dB : ∀ n, 16 ≤ n → ((p.drop 24).take 16).drop n = [] :=
    fun n hn => List.drop_of_length_le (by omega)
  refine ⟨rfl, rfl, pseudo_header_bytes_length p h, ?_, ?_, ?_, ?_, ?_⟩
  all_goals
    simp only [parent_frame_to_pseudo_header, icmpv6_ipv6_pseudo_header.bytes,
      icmpv6_ipv6_pseudo_header.zeroed, frame, htonl, List.append_assoc]
  · rw [List.take_append_of_le_length (by omega), List.take_of_length_le (by omega)]
  · rw [List.drop_append_of_le_length (by omega), List.drop_of_length_le (by omega),
      List.nil_append, List.take_append_of_le_length (by omega),
      List.take_of_length_le (by omega)]
  · simp [List.drop_append_eq_append_drop, List.take_append_eq_append_take, hs, hd]
  · simp [List.drop_append_eq_append_drop, List.take_append_eq_append_take, hs, hd,
      dA 36 (by omega), dB 20 (by omega)]
  · simp [List.drop_append_eq_append_drop, List.take_append_eq_append_take, hs, hd,
      dA 39 (by omega), dB 23 (by omega)]

theorem pseudo_header_addresses_verbatim_witness :
    40 ≤ plain_packet.length ∧
    (parent_frame_to_pseudo_header ⟨plain_packet⟩).bytes =
      [0, 0, 0, 0, 0, 0, 0, 0, 0, 0, 0, 0, 0, 0, 0, 1,
        0, 0, 0, 0, 0, 0, 0, 0, 0, 0, 0, 0, 0, 0, 0, 2,
        0, 0, 0, 16, 0, 0, 0, 58] ∧
    (parent_frame_to_pseudo_header ⟨plain_packet⟩).bytes.take 16
      = (plain_packet.drop 8).take 16 :=
  ⟨by decide, by decide,
    (pseudo_header_addresses_verbatim plain_packet (by decide)).2.2.2.1⟩

/-- The length field of the pseudo header holds the big-endian bytes of the
payload length of the parent frame. -/
theorem pseudo_header_upper_layer_length (p : List Nat) :
    (parent_frame_to_pseudo_header ⟨p⟩).upper_layer_length
      = htonl (payload_length ⟨p⟩) := rfl

/-- C3, the code at a packet with an extension header: the parent frame carries
an 8-byte hop-by-hop header before the 16-byte ICMPv6 frame, the length field of
the pseudo header is the big-endian encoding of 24, the payload length of the
parent, and not of 16, the length of the ICMPv6 frame that is checksummed; the
checksum returned is 0x7FAA where the pseudo header with length 16 gives
0x7FB2. -/
theorem upper_layer_length_with_extension_header :
    (frame ⟨extension_packet⟩).next_header = 0 ∧
    payload_length ⟨extension_packet⟩ = 24 ∧
    extension_packet.drop 48 = echo_request ∧
    echo_request.length = 16 ∧
    (parent_frame_to_pseudo_header ⟨extension_packet⟩).upper_layer_length = [0, 0, 0, 24] ∧
    htonl echo_request.length = [0, 0, 0, 16] ∧
    compute_checksum (⟨echo_request⟩ : const_helper FrameType.icmpv6_frame)
      ⟨extension_packet⟩ = 0x7FAA ∧
    rfc1071_checksum
      [(frame ⟨extension_packet⟩).source ++ (frame ⟨extension_packet⟩).destination
        ++ htonl echo_request.length ++ [0, 0, 0, ICMPV6_HEADER], echo_request] = 0x7FB2 := by
  decide

/-! ## The checksum -/

/-- C2: `compute_checksum` is the RFC 1071 checksum of exactly two spans in this
order, the pseudo header bytes (40 bytes for a parent frame of at least 40 bytes)
and then all bytes of the ICMPv6 frame; the pseudo header having an even number
of bytes, it is also the checksum of the two spans laid end to end; the result
fits in 16 bits. -/
theorem compute_checksum_is_rfc1071 {tag : HelperTag} (p : List Nat)
    (icmpv6 : base_helper_impl tag FrameType.icmpv6_frame) (h : 40 ≤ p.length) :
    (parent_frame_to_pseudo_header ⟨p⟩).bytes.length = 40 ∧
    compute_checksum icmpv6 ⟨p⟩
      = rfc1071_checksum [(parent_frame_to_pseudo_header ⟨p⟩).bytes, icmpv6.buffer] ∧
    compute_checksum icmpv6 ⟨p⟩
      = rfc1071_checksum [(parent_frame_to_pseudo_header ⟨p⟩).bytes ++ icmpv6.buffer] ∧
    compute_checksum icmpv6 ⟨p⟩ < 2 ^ 16 := by
  have hl := pseudo_header_bytes_length p h
  refine ⟨hl, ?_, ?_, ?_⟩
  · rw [compute_checksum_eq]
    simp [rfc1071_checksum, sum_words_eq_words_sum]
  · rw [compute_checksum_eq]
    simp only [rfc1071_checksum, List.map_cons, List.map_nil, List.sum_cons, List.sum_nil,
      Nat.add_zero, ← sum_words_eq_words_sum]
    rw [sum_words_append_even _ _ (by omega)]
  · rw [compute_checksum_eq]
    exact not16_lt _ (fold_carries_lt _)

theorem compute_checksum_is_rfc1071_witness :
    40 ≤ plain_packet.length ∧
    compute_checksum (⟨odd_frame⟩ : const_helper FrameType.icmpv6_frame) ⟨plain_packet⟩
      = rfc1071_checksum
          [(parent_frame_to_pseudo_header ⟨plain_packet⟩).bytes, odd_frame] ∧
    compute_checksum (⟨odd_frame⟩ : const_helper FrameType.icmpv6_frame) ⟨plain_packet⟩
      = 0x78B2 :=
  ⟨by decide,
    (compute_checksum_is_rfc1071 plain_packet ⟨odd_frame⟩ (by decide)).2.1, by decide⟩

/-- C4: for an ICMPv6 frame whose checksum field (bytes 2..3) is zero, storing
the result of `compute_checksum` in the checksum field and running
`compute_checksum` again over the same parent and the rewritten frame yields
0x0000 (or 0xFFFF). -/
theorem checksum_self_consistent (parent_frame : const_helper FrameType.ipv6_frame)
    (icmpv6 : mutable_helper FrameType.icmpv6_frame)
    (h : (icmpv6.buffer.drop 2).take 2 = [0, 0]) :
    compute_checksum (set_checksum icmpv6 (compute_checksum icmpv6 parent_frame))
        parent_frame = 0x0000 ∨
    compute_checksum (set_checksum icmpv6 (compute_checksum icmpv6 parent_frame))
        parent_frame = 0xFFFF := by
  left
  obtain ⟨buf⟩ := icmpv6
  rcases buf with _ | ⟨a, _ | ⟨b, _ | ⟨c2, _ | ⟨c3, rest⟩⟩⟩⟩ <;> simp at h
  obtain ⟨h2, h3⟩ := h
  subst h2 h3
  have hc := compute_checksum_eq (⟨a :: b :: 0 :: 0 :: rest⟩ :
    mutable_helper FrameType.icmpv6_frame) parent_frame
  have hlt : compute_checksum (⟨a :: b :: 0 :: 0 :: rest⟩ :
      mutable_helper FrameType.icmpv6_frame) parent_frame < 65536 := by
    rw [hc]
    exact not16_lt _ (fold_carries_lt _)
  rw [compute_checksum_eq]
  generalize compute_checksum (⟨a :: b :: 0 :: 0 :: rest⟩ :
    mutable_helper FrameType.icmpv6_frame) parent_frame = c at hc hlt
  simp only [sum_words, Nat.zero_mul, Nat.add_zero, Nat.zero_add] at hc
  have key := checksum_cancel
    (sum_words (parent_frame_to_pseudo_header parent_frame).bytes + (a * 256 + b + sum_words rest))
  rw [← hc] at key
  have e : sum_words (set_checksum (⟨a :: b :: 0 :: 0 :: rest⟩ :
      mutable_helper FrameType.icmpv6_frame) c).buffer
      = a * 256 + b + sum_words rest + c := by
    simp only [set_checksum, List.set_cons_succ, List.set_cons_zero, sum_words]
    omega
  rw [e, ← Nat.add_assoc]
  exact key

theorem checksum_self_consistent_witness :
    (echo_request.drop 2).take 2 = [0, 0] ∧
    compute_checksum (⟨echo_request⟩ : mutable_helper FrameType.icmpv6_frame)
      ⟨plain_packet⟩ = 0x7FB2 ∧
    (set_checksum ⟨echo_request⟩ 0x7FB2).buffer
      = [128, 0, 0x7F, 0xB2, 0, 0, 0, 0, 0, 0, 0, 0, 0, 0, 0, 0] ∧
    (compute_checksum (set_checksum ⟨echo_request⟩
        (compute_checksum (⟨echo_request⟩ : mutable_helper FrameType.icmpv6_frame)
          ⟨plain_packet⟩)) ⟨plain_packet⟩ = 0x0000 ∨
      compute_checksum (set_checksum ⟨echo_request⟩
        (compute_checksum (⟨echo_request⟩ : mutable_helper FrameType.icmpv6_frame)
          ⟨plain_packet⟩)) ⟨plain_packet⟩ = 0xFFFF) :=
  ⟨by decide, by decide, by decide,
    checksum_self_consistent ⟨plain_packet⟩ ⟨echo_request⟩ (by decide)⟩

/-- C5: for every IPv6 parent frame with source `::1`, destination `::2` and
payload length 16 (whatever its other header bytes and its payload), and the
16-byte ICMPv6 echo request with cleared checksum, the word sum is
0x0001 + 0x0002 + 0x0010 + 0x003A + 0x8000 = 0x804D and `compute_checksum` is
0x7FB2, the wire bytes 0x7F 0xB2. -/
theorem echo_request_end_to_end {tag : HelperTag} (v0 v1 v2 v3 nh hl : Nat)
    (payload : List Nat) :
    (frame ⟨scenario_packet v0 v1 v2 v3 nh hl payload⟩).source
      = [0, 0, 0, 0, 0, 0, 0, 0, 0, 0, 0, 0, 0, 0, 0, 1] ∧
    (frame ⟨scenario_packet v0 v1 v2 v3 nh hl payload⟩).destination
      = [0, 0, 0, 0, 0, 0, 0, 0, 0, 0, 0, 0, 0, 0, 0, 2] ∧
    payload_length ⟨scenario_packet v0 v1 v2 v3 nh hl payload⟩ = 16 ∧
    (parent_frame_to_pseudo_header ⟨scenario_packet v0 v1 v2 v3 nh hl payload⟩).bytes
      = [0, 0, 0, 0, 0, 0, 0, 0, 0, 0, 0, 0, 0, 0, 0, 1,
          0, 0, 0, 0, 0, 0, 0, 0, 0, 0, 0, 0, 0, 0, 0, 2,
          0, 0, 0, 16, 0, 0, 0, 58] ∧
    sum_words (parent_frame_to_pseudo_header
        ⟨scenario_packet v0 v1 v2 v3 nh hl payload⟩).bytes + sum_words echo_request
      = 0x0001 + 0x0002 + 0x0010 + 0x003A + 0x8000 ∧
    0x0001 + 0x0002 + 0x0010 + 0x003A + 0x8000 = 0x804D ∧
    compute_checksum (⟨echo_request⟩ : base_helper_impl tag FrameType.icmpv6_frame)
      ⟨scenario_packet v0 v1 v2 v3 nh hl payload⟩ = 0x7FB2 ∧
    [0x7FB2 / 256, 0x7FB2 % 256] = [0x7F, 0xB2] := by
  have hb : (parent_frame_to_pseudo_header
      ⟨scenario_packet v0 v1 v2 v3 nh hl payload⟩).bytes
      = [0, 0, 0, 0, 0, 0, 0, 0, 0, 0, 0, 0, 0, 0, 0, 1,
          0, 0, 0, 0, 0, 0, 0, 0, 0, 0, 0, 0, 0, 0, 0, 2,
          0, 0, 0, 16, 0, 0, 0, 58] := by
    simp [parent_frame_to_pseudo_header, icmpv6_ipv6_pseudo_header.bytes,
      icmpv6_ipv6_pseudo_header.zeroed, frame, payload_length, ntohs, htonl,
      scenario_packet, ICMPV6_HEADER]
  refine ⟨?_, ?_, ?_, hb, ?_, by decide, ?_, by decide⟩
  · simp [frame, scenario_packet]
  · simp [frame, scenario_packet]
  · simp [frame, payload_length, ntohs, scenario_packet]
  · rw [hb]
    decide
  · rw [compute_checksum_eq, hb]
    dsimp only
    decide

/-- C6: over byte-identical regions the read-only helper and the mutable helper
return the same `compute_checksum` value; both are `compute_icmpv6_checksum` on
the parent frame and the region. -/
theorem compute_checksum_view_mode (parent_frame : const_helper FrameType.ipv6_frame)
    (region : List Nat) :
    compute_checksum (⟨region⟩ : const_helper FrameType.icmpv6_frame) parent_frame
      = compute_checksum (⟨region⟩ : mutable_helper FrameType.icmpv6_frame) parent_frame ∧
    compute_checksum (⟨region⟩ : const_helper FrameType.icmpv6_frame) parent_frame
      = compute_icmpv6_checksum parent_frame
          (⟨region⟩ : const_helper FrameType.icmpv6_frame) ∧
    compute_checksum (⟨region⟩ : mutable_helper FrameType.icmpv6_frame) parent_frame
      = compute_icmpv6_checksum parent_frame
          (⟨region⟩ : mutable_helper FrameType.icmpv6_frame) :=
  ⟨rfl, rfl, rfl⟩

/-- C8: for an ICMPv6 frame of odd byte length, `compute_checksum` over the
frame equals `compute_checksum` over the frame with one zero byte appended (same
parent), and the last byte of the frame enters the sum as the high byte of a
word whose low byte is zero. -/
theorem odd_length_zero_padding {tag : HelperTag}
    (parent_frame : const_helper FrameType.ipv6_frame)
    (icmpv6 : base_helper_impl tag FrameType.icmpv6_frame)
    (h : icmpv6.buffer.length % 2 = 1) :
    compute_checksum (⟨icmpv6.buffer ++ [0]⟩ : base_helper_impl tag FrameType.icmpv6_frame)
        parent_frame
      = compute_checksum icmpv6 parent_frame ∧
    ∃ front last, icmpv6.buffer = front ++ [last] ∧ front.length % 2 = 0 ∧
      compute_checksum icmpv6 parent_frame
        = not16 (fold_carries
            (sum_words (parent_frame_to_pseudo_header parent_frame).bytes
              + (sum_words front + (last * 256 + 0)))) := by
  constructor
  · rw [compute_checksum_eq, compute_checksum_eq, sum_words_append_zero _ h]
  · obtain ⟨front, last, e, hl, hs⟩ := sum_words_odd_last icmpv6.buffer h
    exact ⟨front, last, e, hl, by rw [compute_checksum_eq, hs, Nat.add_zero]⟩

theorem odd_length_zero_padding_witness :
    odd_frame.length % 2 = 1 ∧
    compute_checksum (⟨odd_frame ++ [0]⟩ : const_helper FrameType.icmpv6_frame)
        ⟨plain_packet⟩
      = compute_checksum (⟨odd_frame⟩ : const_helper FrameType.icmpv6_frame)
        ⟨plain_packet⟩ :=
  ⟨by decide, (odd_length_zero_padding ⟨plain_packet⟩ ⟨odd_frame⟩ (by decide)).1⟩

end asiotap.osi

namespace freelan

/-! ## The parsers of the enumeration-valued options -/

/-- C9: `to_routing_method` returns `RM_SWITCH` exactly for the string
"switch", `RM_HUB` exactly for the string "hub", and raises the runtime error
for every other string; the match is case-sensitive. -/
theorem to_routing_method_exact (str : String) :
    to_routing_method "switch" = Except.ok routing_method_type.RM_SWITCH ∧
    to_routing_method "hub" = Except.ok routing_method_type.RM_HUB ∧
    (to_routing_method str = Except.ok routing_method_type.RM_SWITCH ↔ str = "switch") ∧
    (to_routing_method str = Except.ok routing_method_type.RM_HUB ↔ str = "hub") ∧
    (str = "switch" ∨ str = "hub" ∨
      to_routing_method str
        = Except.error ("\"" ++ str ++ "\" is not a valid routing method")) ∧
    to_routing_method "Switch"
      = Except.error "\"Switch\" is not a valid routing method" ∧
    to_routing_method "HUB" = Except.error "\"HUB\" is not a valid routing method" := by
  refine ⟨rfl, rfl, ?_, ?_, ?_, rfl, rfl⟩
  · unfold to_routing_method
    by_cases h1 : str = "switch"
    · simp [h1]
    · by_cases h2 : str = "hub"
      · simp [h2]
      · simp [h1, h2]
  · unfold to_routing_method
    by_cases h1 : str = "switch"
    · simp [h1]
    · by_cases h2 : str = "hub"
      · simp [h2]
      · simp [h1, h2]
  · unfold to_routing_method
    by_cases h1 : str = "switch"
    · exact Or.inl h1
    · by_cases h2 : str = "hub"
      · exact Or.inr (Or.inl h2)
      · simp [h1, h2]

/-- C10: the default declared for each enumeration-valued option is accepted by
its parser: the declared defaults are "system_default", "switch" and "default";
"system_default" parses like "ipv4" to UDP v4, "switch" to `RM_SWITCH`,
"default" to `CVM_DEFAULT`, so none of the three parsers raises on them. -/
theorem enumeration_defaults_accepted :
    defaults get_network_options "network.hostname_resolution_protocol"
      = some (option_value.string "system_default") ∧
    parse_network_hostname_resolution_protocol "system_default"
      = parse_network_hostname_resolution_protocol "ipv4" ∧
    parse_network_hostname_resolution_protocol "ipv4"
      = Except.ok hostname_resolution_protocol_type.udp_v4 ∧
    setup_hostname_resolution_protocol (defaults get_network_options)
      = Except.ok hostname_resolution_protocol_type.udp_v4 ∧
    defaults get_switch_options "switch.routing_method"
      = some (option_value.string "switch") ∧
    to_routing_method "switch" = Except.ok routing_method_type.RM_SWITCH ∧
    defaults get_security_options "security.certificate_validation_method"
      = some (option_value.string "default") ∧
    to_certificate_validation_method "default"
      = Except.ok certificate_validation_method_type.CVM_DEFAULT := by
  exact ⟨rfl, rfl, rfl, rfl, rfl, rfl, rfl, rfl⟩

end freelan
